import Mathlib

/-!
Shallow embedding of the customer OTP authentication controller
(src/controllers/customer/auth.controller.js) of justoo-backend-refactored.

Modelling conventions:
- Machine time is a natural number of milliseconds (JS Date comparisons
  compare millisecond values); JWT expiry claims are in seconds, and the
  session expiry is stored as seconds * 1000, exactly as the source does.
- SHA-256 is collision-free for every input the program ever hashes, so it
  is embedded as an injective encoding: otpToHash keeps the preimage string
  (the source hashes the string phone:otp), and tokenToHash keeps the token
  value itself.
- External collaborators are inputs: the random 6-digit draw of sendOtp and
  the uuid jti are parameters; the jsonwebtoken library is modelled by the
  Jwt structure (payload plus the secret it was signed with), the exp value
  the source reads back with jwt.decode is the signExp parameter (none
  models a failed expiry extraction, the case the source guards at the
  token_failed branch), and the string-level parsing done by jwt.verify in
  logout is a parseTok parameter.
- The drizzle transaction wrapper commits whenever its callback returns
  normally (rollback happens only on a thrown exception); every branch of
  the verifyOtp callback returns normally, so the embedding threads the
  database state through all branches and keeps whatever was written.
- JS string primitives that the controller uses (trim, split on a single
  space, slice(-4)) are modelled directly over character lists so that all
  definitions evaluate inside the kernel.
-/

/-- JS String.prototype.trim: drop whitespace from both ends. -/
def jsTrim (s : String) : String :=
  String.mk (((s.data.dropWhile Char.isWhitespace).reverse.dropWhile Char.isWhitespace).reverse)

/-- Helper for jsSplitSpace: accumulate the current chunk (reversed). -/
def splitSpaceAux : List Char → List Char → List String
  | [], acc => [String.mk acc.reverse]
  | c :: cs, acc =>
    if c = ' ' then String.mk acc.reverse :: splitSpaceAux cs []
    else splitSpaceAux cs (c :: acc)

/-- JS String.prototype.split with separator a single space. -/
def jsSplitSpace (s : String) : List String :=
  splitSpaceAux s.data []

/-- JS s.slice(-4): the last four characters (the whole string when shorter). -/
def jsSliceLast4 (s : String) : String :=
  String.mk (s.data.drop (s.data.length - 4))

/-- JS `value || dflt` on an optional environment string: undefined and the
empty string are falsy and yield the default. -/
def jsOrDefault (v : Option String) (d : String) : String :=
  match v with
  | none => d
  | some s => if s = "" then d else s

/-- otpToHash of the source: sha256 of the string phone:otp, embedded as the
injective encoding that keeps the preimage. -/
def otpToHash (phone otp : String) : String :=
  phone ++ ":" ++ otp

/-- Payload of a signed customer JWT (sub, phone, jti, typ, exp). -/
structure JwtPayload where
  sub : Nat
  phone : String
  jti : String
  typ : String
  exp : Nat
  deriving Repr, DecidableEq

/-- A signed token: its payload together with the secret it was signed with.
jwt.verify succeeds exactly when the verifying secret matches signedWith and
the token is unexpired. -/
structure Jwt where
  payload : JwtPayload
  signedWith : String
  deriving Repr, DecidableEq

/-- tokenToHash of the source: sha256 of the serialized token. Only equality
of hashes is ever observed, so the injective hash is embedded as the token
value itself. -/
def tokenToHash (token : Jwt) : Jwt :=
  token

/-- jwt.verify: returns the payload when the secret matches and the token is
unexpired (now is in seconds here, compared against the exp claim). -/
def jwtVerify (t : Jwt) (secret : String) (now : Nat) : Option JwtPayload :=
  if t.signedWith = secret ∧ now < t.payload.exp then some t.payload else none

/-- The two environment variables requireJwtSecret reads. -/
structure Env where
  nodeEnv : Option String
  customerJwtSecret : Option String
  deriving Repr, DecidableEq

/-- The secret binding of requireJwtSecret: the CUSTOMER_JWT_SECRET
environment value with the JS falsy default applied. -/
def effectiveJwtSecret (env : Env) : String :=
  jsOrDefault env.customerJwtSecret "dev-customer-jwt-secret"

/-- requireJwtSecret of the source: default the secret, and in production
with the placeholder default throw (modelled as Except.error). -/
def requireJwtSecret (env : Env) : Except String String :=
  if env.nodeEnv = some "production" ∧ effectiveJwtSecret env = "dev-customer-jwt-secret" then
    Except.error "CUSTOMER_JWT_SECRET is required in production"
  else
    Except.ok (effectiveJwtSecret env)

/-- Whether an Except value is the error case. -/
def exceptIsError : Except String String → Bool
  | Except.error _ => true
  | Except.ok _ => false

/-- extractBearerToken of the source: split the header on single spaces,
destructure the first two parts, and require scheme Bearer with a truthy
(non-empty) token. -/
def extractBearerToken (header : String) : Option String :=
  let parts := jsSplitSpace header
  match parts[0]?, parts[1]? with
  | some scheme, some token => if scheme = "Bearer" ∧ token ≠ "" then some token else none
  | _, _ => none

/-- normalizePhone of the source: String(phone or empty).trim(). -/
def normalizePhone (phone : Option String) : String :=
  jsTrim (phone.getD "")

/-- isPhoneWhitelistedRow of the source: Boolean(row?.phone), i.e. a row was
found and its phone column is a non-empty string. -/
def isPhoneWhitelistedRow : Option String → Bool
  | some p => p != ""
  | none => false

/-- One row of the customer_otps table. -/
structure OtpRow where
  phone : String
  otpHash : String
  expiresAt : Option Nat
  used : Bool
  deriving Repr, DecidableEq

/-- One row of the customers table. -/
structure Customer where
  id : Nat
  name : String
  phone : String
  email : Option String
  createdAt : Nat
  deriving Repr, DecidableEq

/-- One row of the customer_sessions table. -/
structure SessionRow where
  customerId : Nat
  tokenHash : Jwt
  expiresAt : Nat
  deriving Repr, DecidableEq

/-- The relational state the controller touches: the phone whitelist (its
phone column), the three customer tables, and the sequence feeding the
customers serial primary key. -/
structure Db where
  whitelist : List String
  otps : List OtpRow
  customers : List Customer
  sessions : List SessionRow
  nextCustomerId : Nat
  deriving Repr, DecidableEq

/-- select from phone_whitelist where phone = p limit 1. -/
def findWhitelist (wl : List String) (phone : String) : Option String :=
  (wl.filter (fun p => p == phone)).head?

/-- select from customer_otps where phone = p limit 1. -/
def findOtp (otps : List OtpRow) (phone : String) : Option OtpRow :=
  (otps.filter (fun r => r.phone == phone)).head?

/-- select from customers where phone = p limit 1. -/
def findCustomer (cs : List Customer) (phone : String) : Option Customer :=
  (cs.filter (fun c => c.phone == phone)).head?

/-- insert into customer_otps ... onConflictDoUpdate with conflict target the
phone key: replace the conflicting row, or append a fresh one. -/
def upsertOtp (otps : List OtpRow) (row : OtpRow) : List OtpRow :=
  if otps.any (fun r => r.phone == row.phone) then
    otps.map (fun r => if r.phone == row.phone then row else r)
  else
    otps ++ [row]

/-- Outcomes of the sendOtp handler. -/
inductive SendOutcome where
  | phoneRequired
  | notWhitelisted
  | ok
  deriving Repr, DecidableEq

/-- HTTP translation of sendOtp outcomes (status, body marker). -/
def sendHttp : SendOutcome → Nat × String
  | SendOutcome.phoneRequired => (400, "PHONE_REQUIRED")
  | SendOutcome.notWhitelisted => (403, "PHONE_NOT_WHITELISTED")
  | SendOutcome.ok => (200, "OK")

/-- sendOtp of the source. otpDraw is the random 6-digit code drawn by the
handler; the third component of the result is the (phone, code) pair passed
to the out-of-band customerOtp dispatch (none when nothing is dispatched). -/
def sendOtp (db : Db) (rawPhone : Option String) (otpDraw : String) (now ttl : Nat) :
    SendOutcome × Db × Option (String × String) :=
  let phone := normalizePhone rawPhone
  if phone = "" then (SendOutcome.phoneRequired, db, none)
  else if !(isPhoneWhitelistedRow (findWhitelist db.whitelist phone)) then
    (SendOutcome.notWhitelisted, db, none)
  else
    let otpHash := otpToHash phone otpDraw
    let row : OtpRow := { phone := phone, otpHash := otpHash, expiresAt := some (now + ttl), used := false }
    (SendOutcome.ok, { db with otps := upsertOtp db.otps row }, some (phone, otpDraw))

/-- Outcomes of the verifyOtp handler (the tagged results of the transaction
callback, plus the pre-transaction blank-input rejection). -/
inductive VerifyOutcome where
  | phoneAndOtpRequired
  | otpInvalid
  | otpExpired
  | tokenFailed
  | failed
  | ok (token : Jwt) (customer : Customer)
  deriving Repr, DecidableEq

/-- Whether a verification outcome is the success case. -/
def isOk : VerifyOutcome → Bool
  | VerifyOutcome.ok _ _ => true
  | _ => false

/-- HTTP translation of verifyOtp outcomes (status, error marker). -/
def verifyHttp : VerifyOutcome → Nat × String
  | VerifyOutcome.phoneAndOtpRequired => (400, "PHONE_AND_OTP_REQUIRED")
  | VerifyOutcome.otpExpired => (401, "OTP_EXPIRED")
  | VerifyOutcome.otpInvalid => (401, "OTP_INVALID")
  | VerifyOutcome.tokenFailed => (500, "TOKEN_CREATE_FAILED")
  | VerifyOutcome.failed => (500, "LOGIN_FAILED")
  | VerifyOutcome.ok _ _ => (200, "OK")

/-- The expiry test of the source: otpRow.expiresAt is truthy and now is
strictly past it. -/
def otpExpiredNow (r : OtpRow) (now : Nat) : Bool :=
  match r.expiresAt with
  | some e => decide (e < now)
  | none => false

/-- The conditional consume step: update customer_otps set used = true where
phone = p and used = false. -/
def markUsed (otps : List OtpRow) (phone : String) : List OtpRow :=
  otps.map (fun r => if r.phone == phone && !r.used then { r with used := true } else r)

/-- The returning clause of the conditional consume step: the phone column of
every row the update matched. -/
def claimedPhones (otps : List OtpRow) (phone : String) : List String :=
  (otps.filter (fun r => r.phone == phone && !r.used)).map (fun r => r.phone)

/-- Step 5 of the transaction: look the customer up by phone, inserting one
with the derived default name, the phone and a null email when absent. The
insert draws the next serial id and its returning clause yields the row. -/
def provisionCustomer (db : Db) (phone : String) (now : Nat) : Customer × Db :=
  match findCustomer db.customers phone with
  | some c => (c, db)
  | none =>
    let last4 := jsSliceLast4 phone
    let name := if last4 ≠ "" then "Customer " ++ last4 else "Customer"
    let c : Customer := { id := db.nextCustomerId, name := name, phone := phone, email := none, createdAt := now }
    (c, { db with customers := db.customers ++ [c], nextCustomerId := db.nextCustomerId + 1 })

/-- Steps 6 to 8 of the transaction: sign the customer token, read its exp
back (signExp, none when extraction fails), and insert the session row with
onConflictDoNothing on the token hash. -/
def issueSession (db : Db) (c : Customer) (jti secret : String) (signExp : Option Nat) :
    VerifyOutcome × Db :=
  match signExp with
  | none => (VerifyOutcome.tokenFailed, db)
  | some exp =>
    let token : Jwt := { payload := { sub := c.id, phone := c.phone, jti := jti, typ := "customer", exp := exp }, signedWith := secret }
    let h := tokenToHash token
    let sessions :=
      if db.sessions.any (fun srow => decide (srow.tokenHash = h)) then db.sessions
      else db.sessions ++ [{ customerId := c.id, tokenHash := h, expiresAt := exp * 1000 }]
    (VerifyOutcome.ok token c, { db with sessions := sessions })

/-- The transaction callback of verifyOtp, over already-normalized non-blank
inputs. Every branch returns normally, so the state it produced so far is
committed in every branch. -/
def verifyTx (db : Db) (phone otp : String) (now : Nat) (jti secret : String)
    (signExp : Option Nat) : VerifyOutcome × Db :=
  match findOtp db.otps phone with
  | none => (VerifyOutcome.otpInvalid, db)
  | some otpRow =>
    if otpRow.used then (VerifyOutcome.otpInvalid, db)
    else if otpExpiredNow otpRow now then
      (VerifyOutcome.otpExpired, { db with otps := db.otps.filter (fun r => !(r.phone == phone)) })
    else if otpRow.otpHash != otpToHash phone otp then (VerifyOutcome.otpInvalid, db)
    else if (claimedPhones db.otps phone).head?.isNone then
      (VerifyOutcome.otpInvalid, { db with otps := markUsed db.otps phone })
    else
      issueSession
        (provisionCustomer { db with otps := markUsed db.otps phone } phone now).2
        (provisionCustomer { db with otps := markUsed db.otps phone } phone now).1
        jti secret signExp

/-- verifyOtp of the source: normalize the inputs, reject blanks, then run
the transaction callback. -/
def verifyOtp (db : Db) (rawPhone rawOtp : Option String) (now : Nat) (jti secret : String)
    (signExp : Option Nat) : VerifyOutcome × Db :=
  let phone := normalizePhone rawPhone
  let otp := jsTrim (rawOtp.getD "")
  if phone = "" ∨ otp = "" then (VerifyOutcome.phoneAndOtpRequired, db)
  else verifyTx db phone otp now jti secret signExp

/-- Outcomes of the logout handler. -/
inductive LogoutOutcome where
  | tokenRequired
  | tokenInvalid
  | noContent
  deriving Repr, DecidableEq

/-- HTTP translation of logout outcomes (status, error marker). -/
def logoutHttp : LogoutOutcome → Nat × String
  | LogoutOutcome.tokenRequired => (401, "TOKEN_REQUIRED")
  | LogoutOutcome.tokenInvalid => (401, "TOKEN_INVALID")
  | LogoutOutcome.noContent => (204, "")

/-- logout of the source: extract the bearer token from the Authorization
header, verify it (parseTok is the string-level decoding of the jwt library;
a parse failure is the thrown-verify path), check the typ discriminator, and
delete the session row matching the token hash. -/
def logout (db : Db) (parseTok : String → Option Jwt) (secret : String) (now : Nat)
    (header : Option String) : LogoutOutcome × Db :=
  match extractBearerToken (header.getD "") with
  | none => (LogoutOutcome.tokenRequired, db)
  | some tokStr =>
    match parseTok tokStr with
    | none => (LogoutOutcome.tokenInvalid, db)
    | some t =>
      match jwtVerify t secret now with
      | none => (LogoutOutcome.tokenInvalid, db)
      | some payload =>
        if payload.typ ≠ "customer" then (LogoutOutcome.tokenInvalid, db)
        else
          let h := tokenToHash t
          (LogoutOutcome.noContent,
            { db with sessions := db.sessions.filter (fun srow => !(decide (srow.tokenHash = h))) })

/-- Concrete database used by the C1 witness. -/
def c1row : OtpRow :=
  { phone := "9876543210", otpHash := otpToHash "9876543210" "482913", expiresAt := some 1000, used := false }

/-- Concrete database used by the C1 witness. -/
def c1db : Db :=
  { whitelist := ["9876543210"], otps := [c1row], customers := [], sessions := [], nextCustomerId := 1 }

theorem head_filter_pred {α : Type} {p : α → Bool} {l : List α} {r : α}
    (h : (l.filter p).head? = some r) : p r = true := by
  induction l with
  | nil => simp at h
  | cons x xs ih =>
    by_cases hx : p x = true
    · rw [List.filter_cons_of_pos hx] at h
      simp at h
      rw [← h]
      exact hx
    · rw [List.filter_cons_of_neg (by simpa using hx)] at h
      exact ih h

theorem head_filter_and {α : Type} {p q : α → Bool} {l : List α} {r : α}
    (h : (l.filter p).head? = some r) (hq : q r = true) :
    (l.filter (fun x => p x && q x)).head? = some r := by
  induction l with
  | nil => simp at h
  | cons x xs ih =>
    by_cases hx : p x = true
    · rw [List.filter_cons_of_pos hx] at h
      simp at h
      subst h
      rw [List.filter_cons_of_pos (by simp [hx, hq])]
      rfl
    · rw [List.filter_cons_of_neg (by simpa using hx)] at h
      rw [List.filter_cons_of_neg (by simp [hx])]
      exact ih h

theorem head_map {α β : Type} (f : α → β) (l : List α) :
    (l.map f).head? = (l.head?).map f := by
  cases l <;> rfl

theorem filter_map_comm_phone (g : OtpRow → OtpRow) (hg : ∀ r, (g r).phone = r.phone)
    (l : List OtpRow) (p : String) :
    (l.map g).filter (fun r => r.phone == p) = (l.filter (fun r => r.phone == p)).map g := by
  induction l with
  | nil => rfl
  | cons x xs ih =>
    simp only [List.map_cons, List.filter_cons, hg]
    by_cases hx : (x.phone == p) = true
    · simp [hx, ih]
    · simp [hx, ih]

theorem findOtp_map (g : OtpRow → OtpRow) (hg : ∀ r, (g r).phone = r.phone)
    (l : List OtpRow) (p : String) :
    findOtp (l.map g) p = (findOtp l p).map g := by
  unfold findOtp
  rw [filter_map_comm_phone g hg l p, head_map]

theorem markUsed_phone_preserved (p : String) :
    ∀ r : OtpRow, ((fun x => if x.phone == p && !x.used then { x with used := true } else x) r).phone = r.phone := by
  intro r
  by_cases h : (r.phone == p && !r.used) = true <;> simp [h]

theorem findOtp_markUsed (l : List OtpRow) (p : String) :
    findOtp (markUsed l p) p =
      (findOtp l p).map (fun x => if x.phone == p && !x.used then { x with used := true } else x) := by
  unfold markUsed
  exact findOtp_map _ (markUsed_phone_preserved p) l p

theorem provisionCustomer_otps (db : Db) (p : String) (n : Nat) :
    (provisionCustomer db p n).2.otps = db.otps := by
  unfold provisionCustomer
  cases h : findCustomer db.customers p <;> simp [h]

theorem provisionCustomer_whitelist (db : Db) (p : String) (n : Nat) :
    (provisionCustomer db p n).2.whitelist = db.whitelist := by
  unfold provisionCustomer
  cases h : findCustomer db.customers p <;> simp [h]

theorem issueSession_otps (db : Db) (c : Customer) (jti secret : String) (sx : Option Nat) :
    (issueSession db c jti secret sx).2.otps = db.otps := by
  unfold issueSession
  cases sx with
  | none => rfl
  | some e => simp

theorem issueSession_customers (db : Db) (c : Customer) (jti secret : String) (sx : Option Nat) :
    (issueSession db c jti secret sx).2.customers = db.customers := by
  unfold issueSession
  cases sx with
  | none => rfl
  | some e => simp

theorem issueSession_some_isOk (db : Db) (c : Customer) (jti secret : String) (e : Nat) :
    isOk (issueSession db c jti secret (some e)).1 = true := by
  unfold issueSession
  simp [isOk]

theorem issueSession_some_eq (db : Db) (c : Customer) (jti secret : String) (e : Nat) :
    (issueSession db c jti secret (some e)).1 =
      VerifyOutcome.ok
        { payload := { sub := c.id, phone := c.phone, jti := jti, typ := "customer", exp := e }, signedWith := secret }
        c := by
  unfold issueSession
  simp

theorem verifyOtp_normalized (db : Db) (phone otp : String) (now : Nat) (jti secret : String)
    (sx : Option Nat) (hpt : jsTrim phone = phone) (hp : phone ≠ "")
    (hot : jsTrim otp = otp) (ho : otp ≠ "") :
    verifyOtp db (some phone) (some otp) now jti secret sx =
      verifyTx db phone otp now jti secret sx := by
  unfold verifyOtp normalizePhone
  simp [Option.getD, hpt, hot, hp, ho]

theorem claimedPhones_head_of_live (l : List OtpRow) (p : String) (r : OtpRow)
    (hfind : findOtp l p = some r) (hused : r.used = false) :
    (claimedPhones l p).head? = some r.phone := by
  unfold claimedPhones
  rw [head_map]
  have h1 : (l.filter (fun x => x.phone == p && !x.used)).head? = some r := by
    apply head_filter_and (p := fun x : OtpRow => x.phone == p) (q := fun x : OtpRow => !x.used)
    · exact hfind
    · simp [hused]
  rw [h1]
  rfl

theorem verifyTx_happy (db : Db) (phone otp : String) (now : Nat) (jti secret : String)
    (sx : Option Nat) (r : OtpRow)
    (hfind : findOtp db.otps phone = some r) (hused : r.used = false)
    (hexp : otpExpiredNow r now = false) (hhash : r.otpHash = otpToHash phone otp) :
    verifyTx db phone otp now jti secret sx =
      issueSession (provisionCustomer { db with otps := markUsed db.otps phone } phone now).2
        (provisionCustomer { db with otps := markUsed db.otps phone } phone now).1
        jti secret sx := by
  unfold verifyTx
  rw [hfind]
  have hclaim : (claimedPhones db.otps phone).head?.isNone = false := by
    rw [claimedPhones_head_of_live db.otps phone r hfind hused]
    rfl
  simp [hused, hexp, hhash, hclaim]

theorem findOtp_phone_matches {l : List OtpRow} {p : String} {r : OtpRow}
    (h : findOtp l p = some r) : (r.phone == p) = true := by
  unfold findOtp at h
  exact head_filter_pred (p := fun x : OtpRow => x.phone == p) h

theorem markUsed_of_no_claim (l : List OtpRow) (p : String)
    (h : (claimedPhones l p).head?.isNone = true) : markUsed l p = l := by
  unfold claimedPhones at h
  rw [head_map] at h
  have h2 : (l.filter (fun r => r.phone == p && !r.used)) = [] := by
    apply List.head?_eq_none_iff.mp
    cases hc : (l.filter (fun r => r.phone == p && !r.used)).head? with
    | none => rfl
    | some v => rw [hc] at h; simp at h
  have h3 := List.filter_eq_nil_iff.mp h2
  unfold markUsed
  have h4 : ∀ x ∈ l, (if x.phone == p && !x.used then { x with used := true } else x) = x := by
    intro x hx
    simp [h3 x hx]
  calc l.map (fun x => if x.phone == p && !x.used then { x with used := true } else x)
      = l.map id := List.map_congr_left h4
    _ = l := List.map_id l

theorem string_append_cancel_left {a b c : String} (h : a ++ b = a ++ c) : b = c := by
  have h2 := congrArg String.data h
  simp only [String.data_append] at h2
  exact String.ext (List.append_cancel_left h2)

theorem otpToHash_inj_otp {phone o1 o2 : String} (h : otpToHash phone o1 = otpToHash phone o2) :
    o1 = o2 := by
  unfold otpToHash at h
  rw [String.append_assoc, String.append_assoc] at h
  exact string_append_cancel_left (string_append_cancel_left h)

/-- C1: an OTP code is consumed at most once. From a state whose OTP record
for the phone is live (unused, unexpired, hash-matching), the first verifyOtp
call with the correct code succeeds, the record is left with used = true, and
every subsequent verifyOtp call with the same phone and code (at any later
time, with any token environment) fails with the otp_invalid outcome, mapped
to HTTP 401 OTP_INVALID, and leaves the state unchanged. -/
theorem c1_otp_consume_once (db : Db) (phone otp : String) (now : Nat) (jti secret : String)
    (e : Nat) (r : OtpRow)
    (hpt : jsTrim phone = phone) (hp : phone ≠ "")
    (hot : jsTrim otp = otp) (ho : otp ≠ "")
    (hfind : findOtp db.otps phone = some r) (hused : r.used = false)
    (hexp : otpExpiredNow r now = false) (hhash : r.otpHash = otpToHash phone otp) :
    isOk (verifyOtp db (some phone) (some otp) now jti secret (some e)).1 = true ∧
    findOtp (verifyOtp db (some phone) (some otp) now jti secret (some e)).2.otps phone =
      some { r with used := true } ∧
    (∀ now2 jti2 secret2 sx2,
      verifyOtp (verifyOtp db (some phone) (some otp) now jti secret (some e)).2
          (some phone) (some otp) now2 jti2 secret2 sx2 =
        (VerifyOutcome.otpInvalid, (verifyOtp db (some phone) (some otp) now jti secret (some e)).2)) ∧
    verifyHttp VerifyOutcome.otpInvalid = (401, "OTP_INVALID") := by
  have hnorm := verifyOtp_normalized db phone otp now jti secret (some e) hpt hp hot ho
  have htx := verifyTx_happy db phone otp now jti secret (some e) r hfind hused hexp hhash
  have hotps : (verifyOtp db (some phone) (some otp) now jti secret (some e)).2.otps =
      markUsed db.otps phone := by
    rw [hnorm, htx, issueSession_otps, provisionCustomer_otps]
  have hrphone : r.phone = phone := by simpa using findOtp_phone_matches hfind
  have hfind2 : findOtp (verifyOtp db (some phone) (some otp) now jti secret (some e)).2.otps phone =
      some { r with used := true } := by
    rw [hotps, findOtp_markUsed, hfind]
    simp [hrphone, hused]
  refine ⟨?_, hfind2, ?_, rfl⟩
  · rw [hnorm, htx]
    exact issueSession_some_isOk _ _ _ _ _
  · intro now2 jti2 secret2 sx2
    rw [verifyOtp_normalized _ phone otp now2 jti2 secret2 sx2 hpt hp hot ho]
    unfold verifyTx
    rw [hfind2]
    simp

/-- Witness for C1 at a concrete database. -/
theorem c1_witness :
    isOk (verifyOtp c1db (some "9876543210") (some "482913") 5 "jti-1" "secret-1" (some 99)).1 = true :=
  (c1_otp_consume_once c1db "9876543210" "482913" 5 "jti-1" "secret-1" 99 c1row
    (by decide) (by decide) (by decide) (by decide) (by decide) (by decide) (by decide)
    (by decide)).1

/-- Concrete row used by the C2 counterexample. -/
def c2row : OtpRow :=
  { phone := "5550001111", otpHash := otpToHash "5550001111" "123456", expiresAt := some 1000, used := false }

/-- Concrete database used by the C2 counterexample. -/
def c2db : Db :=
  { whitelist := ["5550001111"], otps := [c2row], customers := [], sessions := [], nextCustomerId := 1 }

/-- Concrete empty database used by the C2 witness. -/
def c2emptyDb : Db :=
  { whitelist := [], otps := [], customers := [], sessions := [], nextCustomerId := 1 }

theorem verifyTx_spec (db : Db) (phone otp : String) (now : Nat) (jti secret : String)
    (sx : Option Nat) :
    ((verifyTx db phone otp now jti secret sx).1 = VerifyOutcome.otpInvalid ∨
     (verifyTx db phone otp now jti secret sx).1 = VerifyOutcome.otpExpired) →
    ((verifyTx db phone otp now jti secret sx).2.otps = db.otps ∨
     (verifyTx db phone otp now jti secret sx).2.otps =
       db.otps.filter (fun r => !(r.phone == phone))) := by
  unfold verifyTx
  split
  · intro _
    left
    rfl
  · split
    · intro _
      left
      rfl
    · split
      · intro _
        right
        rfl
      · split
        · intro _
          left
          rfl
        · split
          · rename_i hcl
            intro _
            left
            exact markUsed_of_no_claim _ _ hcl
          · intro hfail
            exfalso
            rcases hfail with hfail | hfail <;>
              cases sx <;> simp [issueSession] at hfail

/-- C2 (amended): a verifyOtp call that ends in the otp_invalid or
otp_expired outcome leaves the OTP table unchanged, except that the expired
path deletes the phone's record; in particular such a failure never marks a
code used. (The token-creation-failure and customer-creation-failure
branches run after the conditional used-flag update and the transaction
commits on normal return, so those failures do leave the record marked
used — see the counterexample.) -/
theorem c2_no_partial_consume (db : Db) (rawPhone rawOtp : Option String) (now : Nat)
    (jti secret : String) (sx : Option Nat)
    (hfail : (verifyOtp db rawPhone rawOtp now jti secret sx).1 = VerifyOutcome.otpInvalid ∨
             (verifyOtp db rawPhone rawOtp now jti secret sx).1 = VerifyOutcome.otpExpired) :
    (verifyOtp db rawPhone rawOtp now jti secret sx).2.otps = db.otps ∨
    (verifyOtp db rawPhone rawOtp now jti secret sx).2.otps =
      db.otps.filter (fun r => !(r.phone == normalizePhone rawPhone)) := by
  revert hfail
  simp only [verifyOtp]
  split
  · intro _
    left
    rfl
  · exact verifyTx_spec db _ _ now jti secret sx

/-- C2 counterexample: with a live, hash-matching OTP record and a failing
token-expiry extraction, verifyOtp ends in the tokenFailed failure outcome
yet the phone's OTP record is left marked used, refuting the claim that a
failed verification never marks a code used. -/
theorem c2_counterexample :
    (verifyOtp c2db (some "5550001111") (some "123456") 5 "jti-2" "secret-2" none).1 =
      VerifyOutcome.tokenFailed ∧
    (findOtp (verifyOtp c2db (some "5550001111") (some "123456") 5 "jti-2" "secret-2" none).2.otps
        "5550001111").map OtpRow.used = some true := by
  decide

/-- Witness for the amended C2 at a concrete input ending in otp_invalid. -/
theorem c2_witness :
    (verifyOtp c2emptyDb (some "5550001111") (some "123456") 5 "jti-2" "secret-2" none).2.otps =
      c2emptyDb.otps ∨
    (verifyOtp c2emptyDb (some "5550001111") (some "123456") 5 "jti-2" "secret-2" none).2.otps =
      c2emptyDb.otps.filter (fun r => !(r.phone == normalizePhone (some "5550001111"))) :=
  c2_no_partial_consume c2emptyDb (some "5550001111") (some "123456") 5 "jti-2" "secret-2" none
    (Or.inl (by decide))

/-- Concrete row used by the C4 witness. -/
def c4row : OtpRow :=
  { phone := "5550002222", otpHash := otpToHash "5550002222" "222333", expiresAt := some 1000, used := false }

/-- Concrete database used by the C4 witness. -/
def c4db : Db :=
  { whitelist := ["5550002222"], otps := [c4row], customers := [], sessions := [], nextCustomerId := 1 }

theorem filter_ne_then_none (l : List OtpRow) (p : String) :
    findOtp (l.filter (fun x => !(x.phone == p))) p = none := by
  unfold findOtp
  rw [List.head?_eq_none_iff]
  induction l with
  | nil => rfl
  | cons x xs ih =>
    by_cases hx : (x.phone == p) = true <;> simp [List.filter_cons, hx, ih]

/-- C4: with an existing, not-yet-used OTP record whose expiry lies strictly
before the current time, verifyOtp deletes the record and fails with the
distinct otp_expired outcome (HTTP 401 OTP_EXPIRED) regardless of the
submitted code; afterwards no record exists for the phone, so any further
verification for it fails with otp_invalid. -/
theorem c4_expired_delete (db : Db) (phone otp : String) (now : Nat) (jti secret : String)
    (sx : Option Nat) (r : OtpRow) (e : Nat)
    (hpt : jsTrim phone = phone) (hp : phone ≠ "")
    (hot : jsTrim otp = otp) (ho : otp ≠ "")
    (hfind : findOtp db.otps phone = some r) (hused : r.used = false)
    (hexpAt : r.expiresAt = some e) (hlt : e < now) :
    verifyOtp db (some phone) (some otp) now jti secret sx =
      (VerifyOutcome.otpExpired, { db with otps := db.otps.filter (fun x => !(x.phone == phone)) }) ∧
    verifyHttp VerifyOutcome.otpExpired = (401, "OTP_EXPIRED") ∧
    findOtp ((verifyOtp db (some phone) (some otp) now jti secret sx).2).otps phone = none ∧
    (∀ otp2 now2 jti2 secret2 sx2, jsTrim otp2 = otp2 → otp2 ≠ "" →
      verifyOtp (verifyOtp db (some phone) (some otp) now jti secret sx).2
          (some phone) (some otp2) now2 jti2 secret2 sx2 =
        (VerifyOutcome.otpInvalid, (verifyOtp db (some phone) (some otp) now jti secret sx).2)) := by
  have hexp : otpExpiredNow r now = true := by simp [otpExpiredNow, hexpAt, hlt]
  have h1 : verifyOtp db (some phone) (some otp) now jti secret sx =
      (VerifyOutcome.otpExpired, { db with otps := db.otps.filter (fun x => !(x.phone == phone)) }) := by
    rw [verifyOtp_normalized db phone otp now jti secret sx hpt hp hot ho]
    unfold verifyTx
    rw [hfind]
    simp [hused, hexp]
  have hnone : findOtp (db.otps.filter (fun x => !(x.phone == phone))) phone = none :=
    filter_ne_then_none db.otps phone
  refine ⟨h1, rfl, ?_, ?_⟩
  · rw [h1]
    exact hnone
  · intro otp2 now2 jti2 secret2 sx2 h2t h2ne
    rw [verifyOtp_normalized _ phone otp2 now2 jti2 secret2 sx2 hpt hp h2t h2ne, h1]
    simp [verifyTx, hnone]

/-- Witness for C4 at a concrete database, with a non-matching code. -/
theorem c4_witness :
    verifyOtp c4db (some "5550002222") (some "999999") 2000 "j4" "s4" none =
      (VerifyOutcome.otpExpired,
        { c4db with otps := c4db.otps.filter (fun x => !(x.phone == "5550002222")) }) :=
  (c4_expired_delete c4db "5550002222" "999999" 2000 "j4" "s4" none c4row 1000
    (by decide) (by decide) (by decide) (by decide) (by decide) (by decide) (by decide)
    (by decide)).1

/-- Concrete row used by the C3 counterexample. -/
def c3row : OtpRow :=
  { phone := "5550003333", otpHash := otpToHash "5550003333" "482913", expiresAt := some 1000, used := false }

/-- Concrete database used by the C3 counterexample. -/
def c3db : Db :=
  { whitelist := ["5550003333"], otps := [c3row], customers := [], sessions := [], nextCustomerId := 1 }

/-- Concrete row used by the C3 witness. -/
def c3wrow : OtpRow :=
  { phone := "5550004444", otpHash := otpToHash "5550004444" "482913", expiresAt := some 1000, used := false }

/-- Concrete database used by the C3 witness. -/
def c3wdb : Db :=
  { whitelist := ["5550004444"], otps := [c3wrow], customers := [], sessions := [], nextCustomerId := 1 }

theorem findOtp_any {l : List OtpRow} {p : String} {r : OtpRow}
    (h : findOtp l p = some r) : l.any (fun x => x.phone == p) = true := by
  unfold findOtp at h
  induction l with
  | nil => simp at h
  | cons x xs ih =>
    by_cases hx : (x.phone == p) = true
    · simp [hx]
    · rw [List.filter_cons_of_neg (by simpa using hx)] at h
      simp [hx, ih h]

theorem countP_map_phone (l : List OtpRow) (g : OtpRow → OtpRow)
    (hg : ∀ r, (g r).phone = r.phone) (q : String) :
    (l.map g).countP (fun r => r.phone == q) = l.countP (fun r => r.phone == q) := by
  induction l with
  | nil => rfl
  | cons x xs ih => simp [List.countP_cons, ih, hg]

theorem upsertOtp_at_most_one (l : List OtpRow) (row : OtpRow) (q : String)
    (h : l.countP (fun r => r.phone == q) ≤ 1) :
    (upsertOtp l row).countP (fun r => r.phone == q) ≤ 1 := by
  unfold upsertOtp
  split
  · rw [countP_map_phone]
    · exact h
    · intro r
      by_cases hr : (r.phone == row.phone) = true
      · have h2 : r.phone = row.phone := by simpa using hr
        simp [hr, h2]
      · simp [hr]
  · rename_i hany
    rw [List.countP_append]
    by_cases hq : (row.phone == q) = true
    · have h0 : l.countP (fun r => r.phone == q) = 0 := by
        rw [List.countP_eq_zero]
        intro a ha hpa
        have h1 : a.phone = q := by simpa using hpa
        have h2 : row.phone = q := by simpa using hq
        have h3 : ∀ x ∈ l, ¬x.phone = row.phone := by simpa using hany
        exact h3 a ha (by rw [h1, h2])
      have h4 : List.countP (fun r => r.phone == q) [row] ≤ 1 := by
        simp only [List.countP_cons, List.countP_nil]
        split <;> omega
      rw [h0]
      omega
    · have h4 : List.countP (fun r => r.phone == q) [row] = 0 := by
        simp only [List.countP_cons, List.countP_nil]
        simp [hq]
      rw [h4]
      omega

theorem findOtp_upsert_same (l : List OtpRow) (row : OtpRow) (r : OtpRow)
    (hfind : findOtp l row.phone = some r) :
    findOtp (upsertOtp l row) row.phone = some row := by
  unfold upsertOtp
  rw [if_pos (findOtp_any hfind)]
  have hg : ∀ x : OtpRow, ((fun y : OtpRow => if y.phone == row.phone then row else y) x).phone = x.phone := by
    intro x
    by_cases hx : (x.phone == row.phone) = true
    · have h2 : x.phone = row.phone := by simpa using hx
      simp [hx, h2]
    · simp [hx]
  have hr : r.phone = row.phone := by simpa using findOtp_phone_matches hfind
  rw [findOtp_map _ hg l row.phone, hfind]
  simp [hr]

/-- C3 (amended): sendOtp for a whitelisted phone upserts the phone's record
(keeping at most one OTP record per phone) with the fresh hash, fresh expiry
and used = false; provided the fresh random draw differs from the previously
issued code, the old unconsumed code no longer verifies even before its TTL
elapses (the draw can repeat the old code, in which case the old code still
verifies — see the counterexample). -/
theorem c3_resend_overwrites (db : Db) (phone oldOtp newOtp : String) (now ttl now2 : Nat)
    (r : OtpRow)
    (hpt : jsTrim phone = phone) (hp : phone ≠ "")
    (hInv : ∀ q, db.otps.countP (fun x => x.phone == q) ≤ 1)
    (hwl : isPhoneWhitelistedRow (findWhitelist db.whitelist phone) = true)
    (hfind : findOtp db.otps phone = some r)
    (hne : oldOtp ≠ newOtp)
    (hot : jsTrim oldOtp = oldOtp) (ho : oldOtp ≠ "")
    (hnow2 : now2 ≤ now + ttl) :
    (sendOtp db (some phone) newOtp now ttl).1 = SendOutcome.ok ∧
    (∀ q, (sendOtp db (some phone) newOtp now ttl).2.1.otps.countP (fun x => x.phone == q) ≤ 1) ∧
    findOtp (sendOtp db (some phone) newOtp now ttl).2.1.otps phone =
      some { phone := phone, otpHash := otpToHash phone newOtp, expiresAt := some (now + ttl), used := false } ∧
    (∀ jti secret sx,
      (verifyOtp (sendOtp db (some phone) newOtp now ttl).2.1
          (some phone) (some oldOtp) now2 jti secret sx).1 = VerifyOutcome.otpInvalid) := by
  have hsend : sendOtp db (some phone) newOtp now ttl =
      (SendOutcome.ok,
        { db with otps := upsertOtp db.otps ({ phone := phone, otpHash := otpToHash phone newOtp, expiresAt := some (now + ttl), used := false } : OtpRow) },
        some (phone, newOtp)) := by
    unfold sendOtp normalizePhone
    simp [Option.getD, hpt, hp, hwl]
  refine ⟨?_, ?_, ?_, ?_⟩
  · rw [hsend]
  · intro q
    rw [hsend]
    exact upsertOtp_at_most_one db.otps _ q (hInv q)
  · rw [hsend]
    exact findOtp_upsert_same db.otps _ r hfind
  · intro jti secret sx
    rw [verifyOtp_normalized _ phone oldOtp now2 jti secret sx hpt hp hot ho]
    unfold verifyTx
    have hfr : findOtp (sendOtp db (some phone) newOtp now ttl).2.1.otps phone =
        some { phone := phone, otpHash := otpToHash phone newOtp, expiresAt := some (now + ttl), used := false } := by
      rw [hsend]
      exact findOtp_upsert_same db.otps _ r hfind
    rw [hfr]
    have hash_ne : otpToHash phone newOtp ≠ otpToHash phone oldOtp := by
      intro hcontra
      exact hne ((otpToHash_inj_otp hcontra).symm)
    have hlt2 : ¬ (now + ttl < now2) := by omega
    simp [otpExpiredNow, hlt2, hash_ne]

/-- C3 counterexample: the 6-digit random draw can repeat the code of the
phone's previously issued, unconsumed record; after such a sendOtp call the
previously issued code still verifies within its TTL, refuting the claim
that the overwrite always invalidates the old code. -/
theorem c3_counterexample :
    (sendOtp c3db (some "5550003333") "482913" 0 1000).1 = SendOutcome.ok ∧
    isOk (verifyOtp (sendOtp c3db (some "5550003333") "482913" 0 1000).2.1
        (some "5550003333") (some "482913") 5 "j3" "s3" (some 99)).1 = true := by
  decide

/-- Witness for the amended C3 at a concrete database with a fresh draw that
differs from the old code. -/
theorem c3_witness :
    (verifyOtp (sendOtp c3wdb (some "5550004444") "999999" 0 1000).2.1
        (some "5550004444") (some "482913") 5 "j3" "s3" none).1 = VerifyOutcome.otpInvalid :=
  (c3_resend_overwrites c3wdb "5550004444" "482913" "999999" 0 1000 5 c3wrow
    (by decide) (by decide)
    (by
      intro q
      show List.countP (fun x => x.phone == q) [c3wrow] ≤ 1
      simp only [List.countP_cons, List.countP_nil]
      split <;> omega)
    (by decide) (by decide) (by decide) (by decide) (by decide)
    (by decide)).2.2.2 "j3" "s3" none

/-- Concrete database used by the C5 witness. -/
def c5db : Db :=
  { whitelist := ["5550005555"], otps := [], customers := [], sessions := [], nextCustomerId := 1 }

/-- C5: sendOtp for a non-blank phone with no whitelist entry fails with
403 PHONE_NOT_WHITELISTED, draws and dispatches no code and leaves the state
unchanged; for a blank phone it fails with 400 PHONE_REQUIRED, likewise with
no side effect. -/
theorem c5_send_rejections (db : Db) (rawPhone : Option String) (otpDraw : String) (now ttl : Nat) :
    (normalizePhone rawPhone ≠ "" →
      findWhitelist db.whitelist (normalizePhone rawPhone) = none →
      sendOtp db rawPhone otpDraw now ttl = (SendOutcome.notWhitelisted, db, none) ∧
      sendHttp SendOutcome.notWhitelisted = (403, "PHONE_NOT_WHITELISTED")) ∧
    (normalizePhone rawPhone = "" →
      sendOtp db rawPhone otpDraw now ttl = (SendOutcome.phoneRequired, db, none) ∧
      sendHttp SendOutcome.phoneRequired = (400, "PHONE_REQUIRED")) := by
  constructor
  · intro hp hwl
    refine ⟨?_, rfl⟩
    unfold sendOtp
    simp [hp, hwl, isPhoneWhitelistedRow]
  · intro hp
    refine ⟨?_, rfl⟩
    unfold sendOtp
    simp [hp]

/-- Witness for C5 at a concrete database and a non-whitelisted phone. -/
theorem c5_witness :
    sendOtp c5db (some "5550009999") "111222" 0 1000 = (SendOutcome.notWhitelisted, c5db, none) :=
  ((c5_send_rejections c5db (some "5550009999") "111222" 0 1000).1 (by decide) (by decide)).1

theorem jsSliceLast4_ne_empty {s : String} (h : s ≠ "") : jsSliceLast4 s ≠ "" := by
  intro hc
  apply h
  unfold jsSliceLast4 at hc
  have hd : s.data.drop (s.data.length - 4) = [] := congrArg String.data hc
  have hlen := congrArg List.length hd
  rw [List.length_drop, List.length_nil] at hlen
  have hz : s.data.length = 0 := by omega
  exact String.ext (List.length_eq_zero.mp hz)

/-- Concrete row used by the C6 witness. -/
def c6row : OtpRow :=
  { phone := "5550006666", otpHash := otpToHash "5550006666" "654321", expiresAt := some 1000, used := false }

/-- Concrete database used by the C6 witness. -/
def c6db : Db :=
  { whitelist := ["5550006666"], otps := [c6row], customers := [], sessions := [], nextCustomerId := 7 }

/-- C6: on a successful verification, a phone with no Customer row gets
exactly one freshly created Customer whose name is Customer followed by the
last 4 characters of the phone and whose email is null, and the returned
token and profile carry the new id; a phone with an existing Customer row
gets no new row, and the call returns the existing Customer and a token for
its id. -/
theorem c6_customer_provisioning (db : Db) (phone otp : String) (now : Nat) (jti secret : String)
    (e : Nat) (r : OtpRow)
    (hpt : jsTrim phone = phone) (hp : phone ≠ "")
    (hot : jsTrim otp = otp) (ho : otp ≠ "")
    (hfind : findOtp db.otps phone = some r) (hused : r.used = false)
    (hexp : otpExpiredNow r now = false) (hhash : r.otpHash = otpToHash phone otp) :
    (findCustomer db.customers phone = none →
      (verifyOtp db (some phone) (some otp) now jti secret (some e)).2.customers =
        db.customers ++ [{ id := db.nextCustomerId, name := "Customer " ++ jsSliceLast4 phone, phone := phone, email := none, createdAt := now }] ∧
      ((verifyOtp db (some phone) (some otp) now jti secret (some e)).2.customers.filter
          (fun c => c.phone == phone)).length = 1 ∧
      (verifyOtp db (some phone) (some otp) now jti secret (some e)).1 =
        VerifyOutcome.ok
          { payload := { sub := db.nextCustomerId, phone := phone, jti := jti, typ := "customer", exp := e }, signedWith := secret }
          { id := db.nextCustomerId, name := "Customer " ++ jsSliceLast4 phone, phone := phone, email := none, createdAt := now }) ∧
    (∀ c0, findCustomer db.customers phone = some c0 →
      (verifyOtp db (some phone) (some otp) now jti secret (some e)).2.customers = db.customers ∧
      (verifyOtp db (some phone) (some otp) now jti secret (some e)).1 =
        VerifyOutcome.ok
          { payload := { sub := c0.id, phone := c0.phone, jti := jti, typ := "customer", exp := e }, signedWith := secret }
          c0) := by
  have hv := (verifyOtp_normalized db phone otp now jti secret (some e) hpt hp hot ho).trans
    (verifyTx_happy db phone otp now jti secret (some e) r hfind hused hexp hhash)
  constructor
  · intro hnc
    have hpc : provisionCustomer { db with otps := markUsed db.otps phone } phone now =
        ({ id := db.nextCustomerId, name := "Customer " ++ jsSliceLast4 phone, phone := phone, email := none, createdAt := now },
         { db with otps := markUsed db.otps phone,
                   customers := db.customers ++ [{ id := db.nextCustomerId, name := "Customer " ++ jsSliceLast4 phone, phone := phone, email := none, createdAt := now }],
                   nextCustomerId := db.nextCustomerId + 1 }) := by
      unfold provisionCustomer
      rw [show findCustomer ({ db with otps := markUsed db.otps phone } : Db).customers phone = none from hnc]
      simp [jsSliceLast4_ne_empty hp]
    have hfe : db.customers.filter (fun c => c.phone == phone) = [] := by
      unfold findCustomer at hnc
      exact List.head?_eq_none_iff.mp hnc
    refine ⟨?_, ?_, ?_⟩
    · rw [hv, hpc, issueSession_customers]
    · rw [hv, hpc, issueSession_customers]
      simp [List.filter_append, hfe]
    · rw [hv, hpc, issueSession_some_eq]
  · intro c0 hc0
    have hpc : provisionCustomer { db with otps := markUsed db.otps phone } phone now =
        (c0, { db with otps := markUsed db.otps phone }) := by
      unfold provisionCustomer
      rw [show findCustomer ({ db with otps := markUsed db.otps phone } : Db).customers phone = some c0 from hc0]
    refine ⟨?_, ?_⟩
    · rw [hv, hpc, issueSession_customers]
    · rw [hv, hpc, issueSession_some_eq]

/-- Witness for C6: first verification for an unseen phone appends exactly
the derived default Customer row. -/
theorem c6_witness :
    (verifyOtp c6db (some "5550006666") (some "654321") 5 "j6" "s6" (some 99)).2.customers =
      c6db.customers ++ [{ id := c6db.nextCustomerId, name := "Customer " ++ jsSliceLast4 "5550006666", phone := "5550006666", email := none, createdAt := 5 }] :=
  ((c6_customer_provisioning c6db "5550006666" "654321" 5 "j6" "s6" 99 c6row
    (by decide) (by decide) (by decide) (by decide) (by decide) (by decide) (by decide)
    (by decide)).1 (by decide)).1

/-- Concrete non-customer token used by the C7 witness. -/
def c7jwt : Jwt :=
  { payload := { sub := 3, phone := "5550007777", jti := "jti-7", typ := "rider", exp := 1000 }, signedWith := "secret-7" }

/-- Concrete database used by the C7 witness. -/
def c7db : Db :=
  { whitelist := [], otps := [], customers := [],
    sessions := [{ customerId := 3, tokenHash := c7jwt, expiresAt := 1000000 }], nextCustomerId := 1 }

/-- C7: logout rejects a token whose typ discriminator is not the string
customer with 401 TOKEN_INVALID and deletes no session record, even when the
token is validly signed with the verifying secret and unexpired. -/
theorem c7_logout_type_check (db : Db) (parseTok : String → Option Jwt) (secret : String)
    (now : Nat) (header : Option String) (s : String) (t : Jwt)
    (hext : extractBearerToken (header.getD "") = some s)
    (hparse : parseTok s = some t)
    (hsig : t.signedWith = secret) (hexp : now < t.payload.exp)
    (htyp : t.payload.typ ≠ "customer") :
    logout db parseTok secret now header = (LogoutOutcome.tokenInvalid, db) ∧
    logoutHttp LogoutOutcome.tokenInvalid = (401, "TOKEN_INVALID") := by
  refine ⟨?_, rfl⟩
  unfold logout
  simp only [hext, hparse, jwtVerify]
  rw [if_pos ⟨hsig, hexp⟩]
  simp [htyp]

/-- Witness for C7: a validly signed, unexpired rider token is rejected and
the session store is untouched. -/
theorem c7_witness :
    logout c7db (fun _ => some c7jwt) "secret-7" 5 (some "Bearer tok7") =
      (LogoutOutcome.tokenInvalid, c7db) :=
  (c7_logout_type_check c7db (fun _ => some c7jwt) "secret-7" 5 (some "Bearer tok7") "tok7" c7jwt
    (by decide) rfl rfl (by decide) (by decide)).1

theorem filter_idem {α : Type} (p : α → Bool) (l : List α) :
    (l.filter p).filter p = l.filter p := by
  induction l with
  | nil => rfl
  | cons x xs ih => by_cases hx : p x = true <;> simp [List.filter_cons, hx, ih]

/-- Concrete customer token used by the C8 witness. -/
def c8jwt : Jwt :=
  { payload := { sub := 4, phone := "5550008888", jti := "jti-8", typ := "customer", exp := 1000 }, signedWith := "secret-8" }

/-- Concrete database used by the C8 witness. -/
def c8db : Db :=
  { whitelist := [], otps := [], customers := [],
    sessions := [{ customerId := 4, tokenHash := c8jwt, expiresAt := 1000000 }], nextCustomerId := 1 }

/-- C8: logout with a well-formed, validly signed, unexpired customer token
returns 204 No Content and deletes exactly the sessions matching the token
hash; replaying the same logout immediately afterwards still returns 204 and
leaves the session store unchanged, and when no session matches the call is
a 204 no-op. -/
theorem c8_logout_idempotent (db : Db) (parseTok : String → Option Jwt) (secret : String)
    (now : Nat) (header : Option String) (s : String) (t : Jwt)
    (hext : extractBearerToken (header.getD "") = some s)
    (hparse : parseTok s = some t)
    (hsig : t.signedWith = secret) (hexp : now < t.payload.exp)
    (htyp : t.payload.typ = "customer") :
    logout db parseTok secret now header =
      (LogoutOutcome.noContent,
        { db with sessions := db.sessions.filter (fun srow => !(decide (srow.tokenHash = tokenToHash t))) }) ∧
    logoutHttp LogoutOutcome.noContent = (204, "") ∧
    logout { db with sessions := db.sessions.filter (fun srow => !(decide (srow.tokenHash = tokenToHash t))) }
        parseTok secret now header =
      (LogoutOutcome.noContent,
        { db with sessions := db.sessions.filter (fun srow => !(decide (srow.tokenHash = tokenToHash t))) }) ∧
    ((∀ srow ∈ db.sessions, srow.tokenHash ≠ tokenToHash t) →
      logout db parseTok secret now header = (LogoutOutcome.noContent, db)) := by
  have hbase : ∀ d : Db, logout d parseTok secret now header =
      (LogoutOutcome.noContent,
        { d with sessions := d.sessions.filter (fun srow => !(decide (srow.tokenHash = tokenToHash t))) }) := by
    intro d
    unfold logout
    simp only [hext, hparse, jwtVerify]
    rw [if_pos ⟨hsig, hexp⟩]
    simp [htyp]
  refine ⟨hbase db, rfl, ?_, ?_⟩
  · have h2 : ({ db with sessions := db.sessions.filter (fun srow => !(decide (srow.tokenHash = tokenToHash t))) } : Db).sessions.filter
        (fun srow => !(decide (srow.tokenHash = tokenToHash t))) =
        db.sessions.filter (fun srow => !(decide (srow.tokenHash = tokenToHash t))) :=
      filter_idem _ _
    rw [hbase _, h2]
  · intro hnone
    have h3 : db.sessions.filter (fun srow => !(decide (srow.tokenHash = tokenToHash t))) = db.sessions := by
      rw [List.filter_eq_self]
      intro a ha
      simp [hnone a ha]
    rw [hbase db, h3]

/-- Witness for C8: logout deletes the matching session and returns 204. -/
theorem c8_witness :
    logout c8db (fun _ => some c8jwt) "secret-8" 5 (some "Bearer tok8") =
      (LogoutOutcome.noContent,
        { c8db with sessions := c8db.sessions.filter (fun srow => !(decide (srow.tokenHash = tokenToHash c8jwt))) }) :=
  (c8_logout_idempotent c8db (fun _ => some c8jwt) "secret-8" 5 (some "Bearer tok8") "tok8" c8jwt
    (by decide) rfl rfl (by decide) rfl).1

theorem effectiveJwtSecret_eq_placeholder (env : Env) :
    effectiveJwtSecret env = "dev-customer-jwt-secret" ↔
      (env.customerJwtSecret = none ∨ env.customerJwtSecret = some "" ∨
       env.customerJwtSecret = some "dev-customer-jwt-secret") := by
  unfold effectiveJwtSecret jsOrDefault
  cases h : env.customerJwtSecret with
  | none => simp
  | some v =>
    by_cases hv : v = ""
    · simp [hv]
    · simp [hv]

/-- C9: requireJwtSecret fails (the fatal misconfiguration throw) exactly
when NODE_ENV is production and the configured signing secret is unset
(undefined, or the empty string, both falsy under the JS default) or equal
to the placeholder dev-customer-jwt-secret; in every other configuration it
returns the configured (or defaulted) secret without error. -/
theorem c9_jwt_secret_guard (env : Env) :
    (exceptIsError (requireJwtSecret env) = true ↔
      (env.nodeEnv = some "production" ∧
        (env.customerJwtSecret = none ∨ env.customerJwtSecret = some "" ∨
         env.customerJwtSecret = some "dev-customer-jwt-secret"))) ∧
    (exceptIsError (requireJwtSecret env) = false →
      requireJwtSecret env = Except.ok (effectiveJwtSecret env)) := by
  unfold requireJwtSecret
  by_cases hc : env.nodeEnv = some "production" ∧ effectiveJwtSecret env = "dev-customer-jwt-secret"
  · rw [if_pos hc]
    refine ⟨?_, ?_⟩
    · constructor
      · intro _
        exact ⟨hc.1, (effectiveJwtSecret_eq_placeholder env).mp hc.2⟩
      · intro _
        rfl
    · intro h
      simp [exceptIsError] at h
  · rw [if_neg hc]
    refine ⟨?_, ?_⟩
    · constructor
      · intro h
        simp [exceptIsError] at h
      · intro h2
        exact absurd ⟨h2.1, (effectiveJwtSecret_eq_placeholder env).mpr h2.2⟩ hc
    · intro _
      rfl

/-- Witness for C9: production with an unset secret is an error, while a
development configuration yields the default secret. -/
theorem c9_witness :
    exceptIsError (requireJwtSecret { nodeEnv := some "production", customerJwtSecret := none }) = true :=
  (c9_jwt_secret_guard { nodeEnv := some "production", customerJwtSecret := none }).1.mpr
    ⟨rfl, Or.inl rfl⟩

/-- Concrete empty database used by the C10 witness. -/
def c10db : Db :=
  { whitelist := [], otps := [], customers := [], sessions := [], nextCustomerId := 1 }

/-- C10: bearer extraction is strict — a token comes out of the
Authorization header exactly when the split on single spaces has first part
the case-sensitive string Bearer and a non-empty second part; whenever
extraction fails (missing header, lowercase scheme, scheme alone, empty
token after a double space), logout answers 401 TOKEN_REQUIRED with the
state unchanged, before any token parsing or signature verification is
consulted. -/
theorem c10_bearer_extraction (header : Option String) (t : String) :
    (extractBearerToken (header.getD "") = some t ↔
      ((jsSplitSpace (header.getD ""))[0]? = some "Bearer" ∧
       (jsSplitSpace (header.getD ""))[1]? = some t ∧ t ≠ "")) ∧
    (extractBearerToken (header.getD "") = none →
      ∀ db parseTok secret now,
        logout db parseTok secret now header = (LogoutOutcome.tokenRequired, db) ∧
        logoutHttp LogoutOutcome.tokenRequired = (401, "TOKEN_REQUIRED")) := by
  constructor
  · unfold extractBearerToken
    cases h0 : (jsSplitSpace (header.getD ""))[0]? with
    | none =>
      cases h1 : (jsSplitSpace (header.getD ""))[1]? <;> simp [h0, h1]
    | some scheme =>
      cases h1 : (jsSplitSpace (header.getD ""))[1]? with
      | none => simp [h0, h1]
      | some tok =>
        simp only [h0, h1]
        by_cases hc : scheme = "Bearer" ∧ tok ≠ ""
        · rw [if_pos hc]
          constructor
          · intro he
            have htt : tok = t := Option.some_inj.mp he
            refine ⟨by rw [hc.1], he, ?_⟩
            rw [← htt]
            exact hc.2
          · intro h
            exact h.2.1
        · rw [if_neg hc]
          constructor
          · intro he
            exact absurd he (by simp)
          · intro h
            exfalso
            apply hc
            have ha : scheme = "Bearer" := Option.some_inj.mp h.1
            have hb : tok = t := Option.some_inj.mp h.2.1
            refine ⟨ha, ?_⟩
            rw [hb]
            exact h.2.2
  · intro hnone db parseTok secret now
    refine ⟨?_, rfl⟩
    unfold logout
    rw [hnone]

/-- Witness for C10: a lowercase bearer scheme is rejected with 401
TOKEN_REQUIRED and no state change. -/
theorem c10_witness :
    logout c10db (fun _ => none) "s" 0 (some "bearer x") = (LogoutOutcome.tokenRequired, c10db) :=
  (((c10_bearer_extraction (some "bearer x") "x").2 (by decide)) c10db (fun _ => none) "s" 0).1
